import Mathlib

/-!
Shallow embedding of the reservation / order-item status engine
(`src/helper/orderItem.js`, `src/controllers/order.controller.js`,
`src/controllers/orderItem.controller.js`) and proofs about the
conflict finder, the tiered status resolver, the escalation engine and
the group orchestrator.

Dates are modelled as `Int` instants; the persistent store is a pair of
lists (orders, order items).  Mongo `_id`/`oi_id` values are modelled as
`Nat` and assumed unique where the code relies on `updateOne` by id.
-/

namespace OrderCore

/-- The `ORDER_ITEM_STATUS` enumeration from `src/constants/status.js`. -/
inductive Status where
  | onHoldRequest
  | onHold
  | secondHoldRequest
  | secondHold
  | thirdHoldRequest
  | thirdHold
  | unavailable
  | unavailableUntil
  | available
  | confirmed
  | cancelled
  | clean
  | loss
  | damage
  | outStat
  | inStat
  deriving DecidableEq, Repr

/-- The relevant part of the `ORDER_STATUS` enumeration from `src/constants/status.js`. -/
inductive OrderStatus where
  | hold
  | working
  | cancelled
  | confirm
  deriving DecidableEq, Repr

/-- An order item record (`src/schemas/orderItem.schema.js`). -/
structure OrderItem where
  oi_id : Nat
  oi_order_fk_order_id : Nat
  oi_inventory_fk_inventory_id : Nat
  oi_status : Status
  oi_unavailable_until : Option Int
  oi_pickup_at : Int
  oi_return_at : Int
  oi_request_hold : Bool
  oi_deleted : Bool
  deriving DecidableEq, Repr

/-- An order record (`src/schemas/order.schema.js`). -/
structure Order where
  order_id : Nat
  order_pickup_at : Int
  order_return_at : Int
  order_status : OrderStatus
  order_request_hold : Bool
  deriving DecidableEq, Repr

/-- The persistent store: the `orders` and `orderitems` collections. -/
structure DBState where
  orders : List Order
  items : List OrderItem
  deriving DecidableEq, Repr

/-- The `$or` of the three overlap cases in the Mongo query of
`findConflictingOrderItems` (`src/helper/orderItem.js` lines 30-52):
the candidate's pickup `p` falls inside `[s, e]`, or its return `r`
falls inside `[s, e]`, or the candidate encloses `[s, e]`. -/
def overlapCases (p r s e : Int) : Bool :=
  (decide (s ≤ p) && decide (p ≤ e)) ||
  (decide (s ≤ r) && decide (r ≤ e)) ||
  (decide (p ≤ s) && decide (e ≤ r))

/-- The per-document predicate of the `findConflictingOrderItems` query:
same inventory item (when a concrete inventory id is supplied), a
different order, not soft-deleted, and overlapping dates.
`inventoryId = none` models the call `getStatus(order)` in
`createOrderItem`, which omits the inventory argument: the resulting
`undefined` value is stripped from the Mongo query, so every inventory
item matches. -/
def isConflictWith (inventoryId : Option Nat) (currentOrderId : Nat)
    (pickupDate returnDate : Int) (it : OrderItem) : Bool :=
  (match inventoryId with
   | some inv => decide (it.oi_inventory_fk_inventory_id = inv)
   | none => true) &&
  decide (it.oi_order_fk_order_id ≠ currentOrderId) &&
  !it.oi_deleted &&
  overlapCases it.oi_pickup_at it.oi_return_at pickupDate returnDate

/-- Model of `findConflictingOrderItems` (`src/helper/orderItem.js` lines 18-60). -/
def findConflictingOrderItems (items : List OrderItem) (inventoryId : Option Nat)
    (currentOrderId : Nat) (pickupDate returnDate : Int) : List OrderItem :=
  items.filter (isConflictWith inventoryId currentOrderId pickupDate returnDate)

/-- The `holdStatuses` array of `calculateOrderItemStatus`
(`src/helper/orderItem.js` lines 97-104). -/
def holdStatuses : List Status :=
  [.onHoldRequest, .onHold, .secondHoldRequest, .secondHold, .thirdHoldRequest, .thirdHold]

/-- The body of `calculateOrderItemStatus` (`src/helper/orderItem.js`
lines 85-161) applied to an already-computed conflict list: first
confirmed conflict wins, otherwise the tier ladder over the count of
conflicting hold items. -/
def calculateOrderItemStatusFromConflicts (conflictingItems : List OrderItem) :
    Status × Option Int :=
  match conflictingItems.find? (fun it => decide (it.oi_status = Status.confirmed)) with
  | some confirmedItem => (.unavailableUntil, some confirmedItem.oi_return_at)
  | none =>
    let conflictingHoldItems :=
      conflictingItems.filter (fun it => decide (it.oi_status ∈ holdStatuses))
    if conflictingHoldItems.length ≥ 3 then (.unavailable, none)
    else if conflictingHoldItems.length = 0 then (.onHoldRequest, none)
    else if conflictingHoldItems.length = 1 then
      if conflictingHoldItems.any (fun it =>
          decide (it.oi_status = Status.onHold) || decide (it.oi_status = Status.onHoldRequest))
      then (.secondHoldRequest, none)
      else (.onHoldRequest, none)
    else if conflictingHoldItems.length = 2 then
      if conflictingHoldItems.all (fun it =>
          decide (it.oi_status ∈
            [Status.onHold, Status.onHoldRequest, Status.secondHold, Status.secondHoldRequest]))
      then (.thirdHoldRequest, none)
      else (.onHoldRequest, none)
    else (.onHoldRequest, none)

/-- Model of `calculateOrderItemStatus` (`src/helper/orderItem.js` lines 75-166):
find the conflicts for the item's inventory against the order's dates,
then resolve the status. -/
def calculateOrderItemStatus (items : List OrderItem) (itemInventoryId : Nat)
    (order : Order) : Status × Option Int :=
  calculateOrderItemStatusFromConflicts
    (findConflictingOrderItems items (some itemInventoryId) order.order_id
      order.order_pickup_at order.order_return_at)

/-- The body of `getStatus` (`src/helper/orderItem.js` lines 237-263)
applied to an already-computed conflict list: the simplified
item-creation variant of the resolver. -/
def getStatusFromConflicts (conflictingItems : List OrderItem) : Status × Option Int :=
  if conflictingItems.length = 0 then (.available, none)
  else
    match conflictingItems.find? (fun it => decide (it.oi_status = Status.confirmed)) with
    | some confirmedItem => (.unavailableUntil, some confirmedItem.oi_return_at)
    | none =>
      let statuses := conflictingItems.map (fun it => it.oi_status)
      if decide (Status.onHold ∈ statuses) && decide (Status.secondHold ∈ statuses)
          && decide (Status.thirdHold ∈ statuses)
      then (.unavailable, none)
      else (.available, none)

/-- Model of `getStatus` (`src/helper/orderItem.js` lines 226-268). -/
def getStatus (items : List OrderItem) (inventoryId : Option Nat) (order : Order) :
    Status × Option Int :=
  getStatusFromConflicts
    (findConflictingOrderItems items inventoryId order.order_id
      order.order_pickup_at order.order_return_at)

/-- Model of `updateOrderItemsStatusForHold` (`src/helper/orderItem.js` lines
176-215): recompute every non-deleted item of the order with the full
resolver, set the request-hold flag, and set `oi_unavailable_until`
only when the resolver produced an instant — a stale value from an
earlier blocked state is left in place otherwise.  Returns `none` when
the order has no items (the JS function throws). -/
def updateOrderItemsStatusForHold (items : List OrderItem) (orderId : Nat)
    (order : Order) : Option (List OrderItem) :=
  let orderItems := items.filter (fun it =>
    decide (it.oi_order_fk_order_id = orderId) && !it.oi_deleted)
  if orderItems.isEmpty then none
  else some (items.map (fun it =>
    if it.oi_order_fk_order_id = orderId ∧ it.oi_deleted = false then
      let su := calculateOrderItemStatus items it.oi_inventory_fk_inventory_id order
      let base := { it with oi_status := su.1, oi_request_hold := true }
      match su.2 with
      | some u => { base with oi_unavailable_until := some u }
      | none => base
    else it))

/-- One row of the status preview built by `calculateStatusesForDateUpdate`
(`src/helper/orderItem.js` lines 298-343).  `newStatus = none` models the
JS `null` in a confirmed-conflict row. -/
structure PreviewRow where
  itemId : Nat
  newStatus : Option Status
  unavailableUntil : Option Int
  hasError : Bool
  deriving DecidableEq, Repr

/-- Model of `calculateStatusesForDateUpdate` (`src/helper/orderItem.js` lines
279-353): per-item status recomputation against the proposed new dates,
plus a flag recording whether any item hit a confirmed conflict. -/
def calculateStatusesForDateUpdate (st : DBState) (orderId : Nat)
    (newPickupDate newReturnDate : Int) : List PreviewRow × Bool :=
  let orderItems := st.items.filter (fun it =>
    decide (it.oi_order_fk_order_id = orderId) && !it.oi_deleted)
  if orderItems.isEmpty then ([], false)
  else
    let itemsWithStatuses := orderItems.map (fun item =>
      let conflictingItems := findConflictingOrderItems st.items
        (some item.oi_inventory_fk_inventory_id) orderId newPickupDate newReturnDate
      match conflictingItems.find? (fun it => decide (it.oi_status = Status.confirmed)) with
      | some confirmedConflict =>
        { itemId := item.oi_id, newStatus := none,
          unavailableUntil := some confirmedConflict.oi_return_at, hasError := true }
      | none =>
        let su := calculateOrderItemStatusFromConflicts conflictingItems
        { itemId := item.oi_id, newStatus := some su.1,
          unavailableUntil := su.2, hasError := false })
    (itemsWithStatuses, itemsWithStatuses.any (fun row => row.hasError))

/-- The possible outcomes of `updateOrder` (`src/controllers/order.controller.js`
lines 63-220), identified by which `res.status(...).json(...)` fires. -/
inductive UpdateResp where
  | notFound
  | cannotUpdateConfirmed
  | conflictRejected
  | previewOnly
  | committed
  | nonDateUpdated
  | holdRecalcFailed
  deriving DecidableEq, Repr

/-- Model of `updateOrder` (`src/controllers/order.controller.js` lines 63-220) as a
state transformer.  The date branch follows the two-phase flow: compute the
preview, reject on confirmed conflicts, return the preview unless the caller
set `confirmed`, otherwise commit new dates and previewed statuses.  In the
commit, `oi_unavailable_until` is only written when the previewed value is
present (`if (itemStatus.unavailableUntil)`), so a stale instant survives a
transition away from `unavailable-until`. -/
def updateOrder (st : DBState) (orderId : Nat) (newPickup newReturn : Option Int)
    (statusArg : Option OrderStatus) (confirmedFlag : Bool) : UpdateResp × DBState :=
  match st.orders.find? (fun o => decide (o.order_id = orderId)) with
  | none => (.notFound, st)
  | some order =>
    if order.order_status = OrderStatus.confirm then (.cannotUpdateConfirmed, st)
    else if newPickup.isSome || newReturn.isSome then
      let newPickupDate := newPickup.getD order.order_pickup_at
      let newReturnDate := newReturn.getD order.order_return_at
      let preview := calculateStatusesForDateUpdate st orderId newPickupDate newReturnDate
      if preview.2 then (.conflictRejected, st)
      else if !confirmedFlag then (.previewOnly, st)
      else
        let orders2 := st.orders.map (fun o =>
          if o.order_id = orderId then
            { o with
              order_pickup_at := newPickupDate,
              order_return_at := newReturnDate,
              order_status := statusArg.getD o.order_status }
          else o)
        let items2 := st.items.map (fun it =>
          match preview.1.find? (fun row => decide (row.itemId = it.oi_id)) with
          | some row =>
            if it.oi_deleted then it
            else
              let base := { it with
                oi_pickup_at := newPickupDate,
                oi_return_at := newReturnDate,
                oi_status := row.newStatus.getD it.oi_status }
              match row.unavailableUntil with
              | some u => { base with oi_unavailable_until := some u }
              | none => base
          | none => it)
        (.committed, { orders := orders2, items := items2 })
    else
      let order2 := { order with order_status := statusArg.getD order.order_status }
      let orders2 := st.orders.map (fun o => if o.order_id = orderId then order2 else o)
      if statusArg = some OrderStatus.hold then
        match updateOrderItemsStatusForHold st.items orderId order2 with
        | some items2 => (.nonDateUpdated, { orders := orders2, items := items2 })
        | none => (.holdRecalcFailed, { orders := orders2, items := st.items })
      else (.nonDateUpdated, { orders := orders2, items := st.items })

/-- The error outcomes of `confirmOrder` (`src/controllers/order.controller.js`
lines 222-358). -/
inductive ConfirmError where
  | orderNotFound
  | cancelledOrder
  | alreadyConfirmed
  | noItems
  | invalidItemStatuses
  deriving DecidableEq, Repr

/-- The `excludedStatuses` array of `confirmOrder`
(`src/controllers/order.controller.js` lines 298-304). -/
def excludedStatuses : List Status :=
  [.cancelled, .available, .inStat, .unavailable, .unavailableUntil]

/-- Model of `confirmOrder` (`src/controllers/order.controller.js` lines 222-358):
validation (order exists, not cancelled, not already confirmed, has items,
all items `available` or `on-hold`) happens before any mutation; on success
the order and its items become confirmed and conflicting hold-requested
items of other orders are pushed to `unavailable-until` with the confirmed
order's return instant. -/
def confirmOrder (st : DBState) (orderId : Nat) : Except ConfirmError DBState :=
  match st.orders.find? (fun o => decide (o.order_id = orderId)) with
  | none => .error .orderNotFound
  | some order =>
    if order.order_status = OrderStatus.cancelled then .error .cancelledOrder
    else if order.order_status = OrderStatus.confirm then .error .alreadyConfirmed
    else
      let orderItems := st.items.filter (fun it =>
        decide (it.oi_order_fk_order_id = orderId) && !it.oi_deleted)
      if orderItems.isEmpty then .error .noItems
      else
        let invalidItems := orderItems.filter (fun it =>
          decide (it.oi_status ≠ Status.available) && decide (it.oi_status ≠ Status.onHold))
        if invalidItems.isEmpty then
          let orders2 := st.orders.map (fun o =>
            if o.order_id = orderId then { o with order_status := OrderStatus.confirm } else o)
          let items2 := st.items.map (fun it =>
            if it.oi_order_fk_order_id = orderId ∧ it.oi_deleted = false then
              { it with oi_status := Status.confirmed }
            else it)
          let items3 := orderItems.foldl (fun acc item =>
            let conflicting := (findConflictingOrderItems acc
                (some item.oi_inventory_fk_inventory_id) orderId
                order.order_pickup_at order.order_return_at).filter (fun c =>
              c.oi_request_hold && decide (c.oi_status ∉ excludedStatuses))
            acc.map (fun it =>
              if conflicting.any (fun t => decide (t.oi_id = it.oi_id)) then
                { it with
                  oi_status := Status.unavailableUntil,
                  oi_unavailable_until := some order.order_return_at }
              else it)) items2
          .ok { orders := orders2, items := items3 }
        else .error .invalidItemStatuses

/-- The error outcomes of `createOrderItem`
(`src/controllers/orderItem.controller.js` lines 5-44). -/
inductive CreateError where
  | duplicateItem
  | orderNotFound
  deriving DecidableEq, Repr

/-- Model of `createOrderItem` (`src/controllers/orderItem.controller.js` lines 5-44):
reject a duplicate (inventory, order) pair, look up the order, compute the
initial status with `getStatus(order)` — the inventory id argument is
omitted at the call site, so the conflict query is run with the inventory
filter dropped (`none`) — then persist the new item and clear the order's
request-hold flag. -/
def createOrderItem (st : DBState) (newId : Nat) (inventoryId : Nat) (orderId : Nat) :
    Except CreateError (DBState × OrderItem) :=
  if (st.items.find? (fun it =>
      decide (it.oi_inventory_fk_inventory_id = inventoryId) &&
      decide (it.oi_order_fk_order_id = orderId))).isSome then
    .error .duplicateItem
  else
    match st.orders.find? (fun o => decide (o.order_id = orderId)) with
    | none => .error .orderNotFound
    | some order =>
      let su := getStatus st.items none order
      let newItem : OrderItem := {
        oi_id := newId,
        oi_order_fk_order_id := orderId,
        oi_inventory_fk_inventory_id := inventoryId,
        oi_status := su.1,
        oi_unavailable_until := su.2,
        oi_pickup_at := order.order_pickup_at,
        oi_return_at := order.order_return_at,
        oi_request_hold := false,
        oi_deleted := false }
      let orders2 := st.orders.map (fun o =>
        if o.order_id = orderId then { o with order_request_hold := false } else o)
      .ok ({ orders := orders2, items := st.items ++ [newItem] }, newItem)

/-- The `switch` of `promoteConflictingHolds` (`src/helper/orderItem.js`
lines 379-405): the new status to write for a conflicting item, or `none`
when the item is left as is.  When the result is `some`, it always differs
from the input status, so the `newStatus !== item.oi_status` guard before
`updateOne` is always satisfied. -/
def promoteNewStatus (s : Status) : Option Status :=
  match s with
  | .secondHoldRequest => some .onHoldRequest
  | .secondHold => some .onHold
  | .thirdHoldRequest => some .secondHoldRequest
  | .thirdHold => some .secondHold
  | .onHold => none
  | .onHoldRequest => none
  | .available => none
  | .confirmed => none
  | .unavailable => none
  | .unavailableUntil => none
  | _ => some .available

/-- Model of `promoteConflictingHolds` (`src/helper/orderItem.js` lines 363-425):
every conflict of the deleted item (found against the parent order's
interval) has `promoteNewStatus` applied; each write is an `updateOne`
keyed by the conflict's unique id, modelled as a map over the store. -/
def promoteConflictingHolds (items : List OrderItem) (inventoryId : Nat)
    (orderId : Nat) (pickupDate returnDate : Int) : List OrderItem :=
  items.map (fun it =>
    if isConflictWith (some inventoryId) orderId pickupDate returnDate it then
      match promoteNewStatus it.oi_status with
      | some ns => { it with oi_status := ns }
      | none => it
    else it)

/-- Model of `updateUnavailableItemsAfterConfirmedRemoval` (`src/helper/orderItem.js`
lines 435-492): each conflict of the deleted confirmed item currently in
`unavailable` or `unavailable-until` is released to `available` (clearing
`oi_unavailable_until`) when no other confirmed reservation on the same
inventory overlaps the conflict's own order's interval.  The JS query
object spells two `$ne` constraints on `oi_order_fk_order_id` as a
duplicated object-literal key, so only the LAST one survives: the query
excludes the deleted order but NOT the conflict's own order. -/
def updateUnavailableItemsAfterConfirmedRemoval (st : DBState)
    (deletedItem : OrderItem) (order : Order) : List OrderItem :=
  st.items.map (fun it =>
    if isConflictWith (some deletedItem.oi_inventory_fk_inventory_id) order.order_id
        order.order_pickup_at order.order_return_at it &&
        (decide (it.oi_status = Status.unavailable) ||
         decide (it.oi_status = Status.unavailableUntil)) then
      match st.orders.find? (fun o => decide (o.order_id = it.oi_order_fk_order_id)) with
      | none => it
      | some itemOrder =>
        let otherConfirmedConflicts := st.items.filter (fun c =>
          decide (c.oi_inventory_fk_inventory_id = it.oi_inventory_fk_inventory_id) &&
          decide (c.oi_order_fk_order_id ≠ order.order_id) &&
          !c.oi_deleted &&
          decide (c.oi_status = Status.confirmed) &&
          decide (c.oi_pickup_at ≤ itemOrder.order_return_at) &&
          decide (itemOrder.order_pickup_at ≤ c.oi_return_at))
        if otherConfirmedConflicts.isEmpty then
          { it with oi_status := Status.available, oi_unavailable_until := none }
        else it
    else it)

/-- The error outcomes of `deleteOrderItem`
(`src/controllers/orderItem.controller.js`, full version). -/
inductive DeleteError where
  | itemNotFound
  | parentOrderNotFound
  deriving DecidableEq, Repr

/-- Model of `deleteOrderItem` (`src/controllers/orderItem.controller.js`, full
version): soft-delete the item, then dispatch on its pre-deletion status
(no-op for `unavailable`/`unavailable-until`, tier promotion for
`on-hold`/`on-hold-request`, confirmed-release sweep for `confirmed`),
and cancel the order when no non-deleted item remains. -/
def deleteOrderItem (st : DBState) (oiId : Nat) : Except DeleteError DBState :=
  match st.items.find? (fun it => decide (it.oi_id = oiId) && !it.oi_deleted) with
  | none => .error .itemNotFound
  | some orderItem =>
    match st.orders.find? (fun o =>
        decide (o.order_id = orderItem.oi_order_fk_order_id)) with
    | none => .error .parentOrderNotFound
    | some order =>
      let deletedItemStatus := orderItem.oi_status
      let items1 := st.items.map (fun it =>
        if it.oi_id = oiId then { it with oi_deleted := true } else it)
      let st1 : DBState := { st with items := items1 }
      let st2 : DBState :=
        if deletedItemStatus = Status.unavailable ∨
            deletedItemStatus = Status.unavailableUntil then st1
        else if deletedItemStatus = Status.onHold ∨
            deletedItemStatus = Status.onHoldRequest then
          { st1 with
            items := promoteConflictingHolds st1.items
              orderItem.oi_inventory_fk_inventory_id order.order_id
              order.order_pickup_at order.order_return_at }
        else if deletedItemStatus = Status.confirmed then
          { st1 with items := updateUnavailableItemsAfterConfirmedRemoval st1 orderItem order }
        else st1
      let remainingItems := st2.items.filter (fun it =>
        decide (it.oi_order_fk_order_id = order.order_id) && !it.oi_deleted)
      if remainingItems.isEmpty then
        .ok { st2 with orders := st2.orders.map (fun o =>
          if o.order_id = order.order_id then { o with order_status := OrderStatus.cancelled }
          else o) }
      else .ok st2

/-! ## Claim-side notions -/

/-- A tier-1 state: the granted or requested first hold. -/
def isTier1 (s : Status) : Bool :=
  decide (s = Status.onHold) || decide (s = Status.onHoldRequest)

/-- A tier-1 or tier-2 state (request or granted). -/
def isTier1or2 (s : Status) : Bool :=
  isTier1 s || decide (s = Status.secondHold) || decide (s = Status.secondHoldRequest)

/-- The data-model invariant `unavailable_until` is non-null iff the
status is the confirmed-blocking state. -/
def untilInvariant (it : OrderItem) : Prop :=
  it.oi_unavailable_until ≠ none ↔ it.oi_status = Status.unavailableUntil

/-- Test-fixture builder for order items. -/
def mkItem (id ord inv : Nat) (s : Status) (p r : Int) (u : Option Int := none)
    (rh : Bool := false) (del : Bool := false) : OrderItem :=
  { oi_id := id,
    oi_order_fk_order_id := ord,
    oi_inventory_fk_inventory_id := inv,
    oi_status := s,
    oi_unavailable_until := u,
    oi_pickup_at := p,
    oi_return_at := r,
    oi_request_hold := rh,
    oi_deleted := del }

/-! ## C3: the three-case overlap test is the closed-interval
intersection predicate -/

/-- C3: for well-formed candidate interval `[p, r]` and query interval
`[s, e]`, the Conflict Finder's three-case test (`p ∈ [s, e]`, or
`r ∈ [s, e]`, or `p ≤ s ∧ r ≥ e`) holds exactly when the closed
intervals intersect (`p ≤ e ∧ r ≥ s`); in particular intervals touching
at one endpoint conflict and disjoint intervals never do. -/
theorem overlapCases_iff_intersect (p r s e : Int) (hpr : p ≤ r) (hse : s ≤ e) :
    overlapCases p r s e = true ↔ (p ≤ e ∧ s ≤ r) := by
  simp only [overlapCases, Bool.or_eq_true, Bool.and_eq_true, decide_eq_true_eq]
  omega

/-- Witness for `overlapCases_iff_intersect` at the touching intervals
`[0, 1]` and `[1, 2]`. -/
theorem overlapCases_iff_intersect_witness :
    (0 : Int) ≤ 1 ∧ (1 : Int) ≤ 2 ∧
      (overlapCases 0 1 1 2 = true ↔ ((0 : Int) ≤ 2 ∧ (1 : Int) ≤ 1)) :=
  ⟨by norm_num, by norm_num, overlapCases_iff_intersect 0 1 1 2 (by norm_num) (by norm_num)⟩

/-! ## C1: the tier ladder of the full resolver on a confirmed-free
conflict set -/

/-- C1: when no conflict is confirmed, the full resolver returns
`unavailable` when at least 3 conflicts are in a hold-tier status,
tier-1 request when that count is 0, tier-2 request when it is 1 and the
conflict is tier-1, tier-3 request when it is 2 and both conflicts are
tier-1 or tier-2, and tier-1 request in any other configuration. -/
theorem calculateStatus_tier_ladder (conflicts : List OrderItem)
    (hnc : ∀ c ∈ conflicts, c.oi_status ≠ Status.confirmed) :
    (calculateOrderItemStatusFromConflicts conflicts).1 =
      (let hs := conflicts.filter (fun it => decide (it.oi_status ∈ holdStatuses))
       if hs.length ≥ 3 then Status.unavailable
       else if hs.length = 0 then Status.onHoldRequest
       else if hs.length = 1 ∧ hs.all (fun it => isTier1 it.oi_status) then
         Status.secondHoldRequest
       else if hs.length = 2 ∧ hs.all (fun it => isTier1or2 it.oi_status) then
         Status.thirdHoldRequest
       else Status.onHoldRequest) := by
  have hfind : conflicts.find? (fun it => decide (it.oi_status = Status.confirmed)) = none := by
    rw [List.find?_eq_none]
    intro c hc
    simpa using hnc c hc
  simp only [calculateOrderItemStatusFromConflicts, hfind]
  generalize conflicts.filter (fun it => decide (it.oi_status ∈ holdStatuses)) = hs
  rcases hs with _ | ⟨a, _ | ⟨b, _ | ⟨c, rest⟩⟩⟩
  · simp
  · cases ha : a.oi_status <;> simp [ha, isTier1, isTier1or2, holdStatuses]
  · cases ha : a.oi_status <;> cases hb : b.oi_status <;>
      simp [ha, hb, isTier1, isTier1or2, holdStatuses]
  · have h3 : (a :: b :: c :: rest).length ≥ 3 := by
      simp [List.length_cons]
    simp [h3]

/-- Witness for `calculateStatus_tier_ladder`: a single tier-2 conflict
exercises the defensive fallback to tier-1 request. -/
theorem calculateStatus_tier_ladder_witness :
    (∀ c ∈ [mkItem 1 2 1 Status.secondHold 0 10], c.oi_status ≠ Status.confirmed) ∧
    (calculateOrderItemStatusFromConflicts [mkItem 1 2 1 Status.secondHold 0 10]).1 =
      (let hs := [mkItem 1 2 1 Status.secondHold 0 10].filter
        (fun it => decide (it.oi_status ∈ holdStatuses))
       if hs.length ≥ 3 then Status.unavailable
       else if hs.length = 0 then Status.onHoldRequest
       else if hs.length = 1 ∧ hs.all (fun it => isTier1 it.oi_status) then
         Status.secondHoldRequest
       else if hs.length = 2 ∧ hs.all (fun it => isTier1or2 it.oi_status) then
         Status.thirdHoldRequest
       else Status.onHoldRequest) :=
  ⟨by decide, calculateStatus_tier_ladder [mkItem 1 2 1 Status.secondHold 0 10] (by decide)⟩

/-! ## C2: confirmed conflicts yield `unavailable-until`, with the FIRST
confirmed conflict's return instant, not the latest -/

/-- Counterexample to C2: with two confirmed conflicts returning at 5 and
10, the resolver reports `unavailable-until` 5 (the first conflict found),
not the latest return instant 10. -/
theorem calculateStatus_confirmed_not_latest :
    (calculateOrderItemStatusFromConflicts
        [mkItem 1 2 1 Status.confirmed 0 5, mkItem 2 3 1 Status.confirmed 0 10]) =
      (Status.unavailableUntil, some 5) ∧
    (mkItem 2 3 1 Status.confirmed 0 10).oi_status = Status.confirmed ∧
    (mkItem 2 3 1 Status.confirmed 0 10).oi_return_at = 10 ∧
    (calculateOrderItemStatusFromConflicts
        [mkItem 1 2 1 Status.confirmed 0 5, mkItem 2 3 1 Status.confirmed 0 10]).2 ≠
      some 10 := by
  refine ⟨rfl, rfl, rfl, ?_⟩
  decide

/-- C2 as amended: whenever the conflict set contains a confirmed
reservation, the resolver returns `unavailable-until` together with the
return instant of SOME confirmed conflict (the first one in the conflict
list); in particular, when all confirmed conflicts share one return
instant — e.g. with exactly one confirmed conflict — the returned instant
is that one's. -/
theorem calculateStatus_confirmed_first (conflicts : List OrderItem)
    (c : OrderItem) (hc : c ∈ conflicts) (hcs : c.oi_status = Status.confirmed) :
    (calculateOrderItemStatusFromConflicts conflicts).1 = Status.unavailableUntil ∧
    (∃ d ∈ conflicts, d.oi_status = Status.confirmed ∧
      (calculateOrderItemStatusFromConflicts conflicts).2 = some d.oi_return_at) ∧
    ((∀ d ∈ conflicts, d.oi_status = Status.confirmed → d.oi_return_at = c.oi_return_at) →
      (calculateOrderItemStatusFromConflicts conflicts).2 = some c.oi_return_at) := by
  have hsome : (conflicts.find? (fun it => decide (it.oi_status = Status.confirmed))).isSome := by
    rw [List.find?_isSome]
    exact ⟨c, hc, by simp [hcs]⟩
  obtain ⟨d, hd⟩ := Option.isSome_iff_exists.mp hsome
  have hdm : d ∈ conflicts := List.mem_of_find?_eq_some hd
  have hds : d.oi_status = Status.confirmed := by
    have := List.find?_some hd
    simpa using this
  refine ⟨?_, ⟨d, hdm, hds, ?_⟩, ?_⟩
  · simp only [calculateOrderItemStatusFromConflicts, hd]
  · simp only [calculateOrderItemStatusFromConflicts, hd]
  · intro hall
    have : d.oi_return_at = c.oi_return_at := hall d hdm hds
    simp only [calculateOrderItemStatusFromConflicts, hd, this]

/-- Witness for `calculateStatus_confirmed_first` at a one-element
conflict set. -/
theorem calculateStatus_confirmed_first_witness :
    (mkItem 1 2 1 Status.confirmed 0 7) ∈ [mkItem 1 2 1 Status.confirmed 0 7] ∧
    (mkItem 1 2 1 Status.confirmed 0 7).oi_status = Status.confirmed ∧
    ((calculateOrderItemStatusFromConflicts [mkItem 1 2 1 Status.confirmed 0 7]).1 =
        Status.unavailableUntil ∧
      (∃ d ∈ [mkItem 1 2 1 Status.confirmed 0 7], d.oi_status = Status.confirmed ∧
        (calculateOrderItemStatusFromConflicts [mkItem 1 2 1 Status.confirmed 0 7]).2 =
          some d.oi_return_at) ∧
      ((∀ d ∈ [mkItem 1 2 1 Status.confirmed 0 7], d.oi_status = Status.confirmed →
          d.oi_return_at = (mkItem 1 2 1 Status.confirmed 0 7).oi_return_at) →
        (calculateOrderItemStatusFromConflicts [mkItem 1 2 1 Status.confirmed 0 7]).2 =
          some (mkItem 1 2 1 Status.confirmed 0 7).oi_return_at)) :=
  ⟨by decide, by decide,
    calculateStatus_confirmed_first [mkItem 1 2 1 Status.confirmed 0 7]
      (mkItem 1 2 1 Status.confirmed 0 7) (by decide) (by decide)⟩

/-! ## C7: agreement of the simplified and full resolver variants -/

/-- Counterexample to C7: on the empty conflict set the simplified
item-creation variant returns `available` while the full tier-assignment
variant returns `on-hold-request`, so the two variants do NOT agree
whenever the conflict set is empty. -/
theorem getStatus_disagrees_full_on_empty :
    (getStatusFromConflicts []).1 = Status.available ∧
    (calculateOrderItemStatusFromConflicts []).1 = Status.onHoldRequest ∧
    Status.available ≠ Status.onHoldRequest := by
  refine ⟨rfl, rfl, ?_⟩
  decide

/-- C7 as amended: the simplified item-creation variant and the full
tier-assignment variant return the same result whenever the conflict set
contains a confirmed reservation (both yield `unavailable-until` with the
first confirmed conflict's return instant); on the empty conflict set
they differ (`available` versus tier-1 request). -/
theorem getStatus_agrees_full_on_confirmed (conflicts : List OrderItem)
    (h : ∃ c ∈ conflicts, c.oi_status = Status.confirmed) :
    getStatusFromConflicts conflicts = calculateOrderItemStatusFromConflicts conflicts := by
  obtain ⟨c, hc, hcs⟩ := h
  have hne : conflicts.length ≠ 0 := by
    intro h0
    rw [List.length_eq_zero] at h0
    subst h0
    simp at hc
  have hsome : (conflicts.find? (fun it => decide (it.oi_status = Status.confirmed))).isSome := by
    rw [List.find?_isSome]
    exact ⟨c, hc, by simp [hcs]⟩
  obtain ⟨d, hd⟩ := Option.isSome_iff_exists.mp hsome
  simp only [getStatusFromConflicts, calculateOrderItemStatusFromConflicts, hd, if_neg hne]

/-- Witness for `getStatus_agrees_full_on_confirmed` at a one-element
conflict set. -/
theorem getStatus_agrees_full_on_confirmed_witness :
    (∃ c ∈ [mkItem 1 2 1 Status.confirmed 0 7], c.oi_status = Status.confirmed) ∧
    getStatusFromConflicts [mkItem 1 2 1 Status.confirmed 0 7] =
      calculateOrderItemStatusFromConflicts [mkItem 1 2 1 Status.confirmed 0 7] :=
  ⟨by decide,
    getStatus_agrees_full_on_confirmed [mkItem 1 2 1 Status.confirmed 0 7] (by decide)⟩

/-! ## C4: deleting a tier-1 reservation demotes conflicting holds -/

/-- Claim-side demotion table: tier-2 and tier-3 states drop exactly one
tier preserving the request-vs-granted sub-state, tier-1 states and
`available`/`confirmed`/`unavailable`/`unavailable-until` are unchanged,
and every other status is reset to `available`. -/
def demoteSpec : Status → Status
  | .secondHoldRequest => .onHoldRequest
  | .secondHold => .onHold
  | .thirdHoldRequest => .secondHoldRequest
  | .thirdHold => .secondHold
  | .onHoldRequest => .onHoldRequest
  | .onHold => .onHold
  | .available => .available
  | .confirmed => .confirmed
  | .unavailable => .unavailable
  | .unavailableUntil => .unavailableUntil
  | _ => .available

theorem promoteStep_eq_demoteSpec (it : OrderItem) :
    (match promoteNewStatus it.oi_status with
      | some ns => { it with oi_status := ns }
      | none => it) = { it with oi_status := demoteSpec it.oi_status } := by
  rcases it with ⟨id, ord, inv, s, u, p, r, rh, del⟩
  cases s <;> rfl

/-- C4: deleting a reservation in a tier-1 state (`on-hold` or
`on-hold-request`) soft-deletes it and rewrites every other item by the
demotion table exactly on the conflicts with the removed reservation's
own inventory item and interval (equal to its order's interval),
leaving all non-conflicting items untouched. -/
theorem deleteOrderItem_tier1_demotes (st : DBState) (oiId : Nat)
    (orderItem : OrderItem) (order : Order)
    (hfind : st.items.find? (fun it => decide (it.oi_id = oiId) && !it.oi_deleted) =
      some orderItem)
    (hord : st.orders.find? (fun o =>
      decide (o.order_id = orderItem.oi_order_fk_order_id)) = some order)
    (htier : orderItem.oi_status = Status.onHold ∨
      orderItem.oi_status = Status.onHoldRequest)
    (hp : orderItem.oi_pickup_at = order.order_pickup_at)
    (hr : orderItem.oi_return_at = order.order_return_at) :
    ∃ st2, deleteOrderItem st oiId = .ok st2 ∧
      st2.items = st.items.map (fun it =>
        if it.oi_id = oiId then { it with oi_deleted := true }
        else if isConflictWith (some orderItem.oi_inventory_fk_inventory_id)
            order.order_id orderItem.oi_pickup_at orderItem.oi_return_at it then
          { it with oi_status := demoteSpec it.oi_status }
        else it) := by
  have hnotu : ¬(orderItem.oi_status = Status.unavailable ∨
      orderItem.oi_status = Status.unavailableUntil) := by
    rcases htier with h | h <;> simp [h]
  have hitems : promoteConflictingHolds
      (st.items.map (fun it => if it.oi_id = oiId then { it with oi_deleted := true } else it))
      orderItem.oi_inventory_fk_inventory_id order.order_id
      order.order_pickup_at order.order_return_at =
      st.items.map (fun it =>
        if it.oi_id = oiId then { it with oi_deleted := true }
        else if isConflictWith (some orderItem.oi_inventory_fk_inventory_id)
            order.order_id orderItem.oi_pickup_at orderItem.oi_return_at it then
          { it with oi_status := demoteSpec it.oi_status }
        else it) := by
    rw [promoteConflictingHolds, List.map_map]
    apply List.map_congr_left
    intro it _
    simp only [Function.comp_apply]
    by_cases hid : it.oi_id = oiId
    · rw [if_pos hid, if_pos hid]
      have hnc : isConflictWith (some orderItem.oi_inventory_fk_inventory_id) order.order_id
          order.order_pickup_at order.order_return_at { it with oi_deleted := true } = false := by
        simp [isConflictWith]
      rw [hnc]
      simp
    · rw [if_neg hid, if_neg hid, hp, hr]
      by_cases hcf : isConflictWith (some orderItem.oi_inventory_fk_inventory_id) order.order_id
          order.order_pickup_at order.order_return_at it = true
      · rw [if_pos hcf, if_pos hcf]
        exact promoteStep_eq_demoteSpec it
      · rw [if_neg hcf, if_neg hcf]
  simp only [deleteOrderItem, hfind, hord]
  rw [if_neg hnotu, if_pos htier]
  rw [hitems]
  split <;> exact ⟨_, rfl, rfl⟩

/-- Fixture for the C4 witness: two one-item orders holding the same
inventory item on the same interval, at tiers 1 and 2. -/
def c4Order1 : Order :=
  { order_id := 1,
    order_pickup_at := 0,
    order_return_at := 10,
    order_status := .hold,
    order_request_hold := true }

def c4Order2 : Order :=
  { order_id := 2,
    order_pickup_at := 0,
    order_return_at := 10,
    order_status := .hold,
    order_request_hold := true }

def c4State : DBState :=
  { orders := [c4Order1, c4Order2],
    items := [mkItem 1 1 5 .onHold 0 10, mkItem 2 2 5 .secondHold 0 10] }

/-- Witness for `deleteOrderItem_tier1_demotes`: deleting the `on-hold`
item demotes the conflicting `2nd-hold` item to `on-hold`. -/
theorem deleteOrderItem_tier1_demotes_witness :
    (c4State.items.find? (fun it => decide (it.oi_id = 1) && !it.oi_deleted) =
      some (mkItem 1 1 5 .onHold 0 10)) ∧
    (c4State.orders.find? (fun o =>
      decide (o.order_id = (mkItem 1 1 5 .onHold 0 10).oi_order_fk_order_id)) =
      some c4Order1) ∧
    ((mkItem 1 1 5 .onHold 0 10).oi_status = Status.onHold ∨
      (mkItem 1 1 5 .onHold 0 10).oi_status = Status.onHoldRequest) ∧
    (∃ st2, deleteOrderItem c4State 1 = .ok st2 ∧
      st2.items = c4State.items.map (fun it =>
        if it.oi_id = 1 then { it with oi_deleted := true }
        else if isConflictWith (some (mkItem 1 1 5 .onHold 0 10).oi_inventory_fk_inventory_id)
            c4Order1.order_id (mkItem 1 1 5 .onHold 0 10).oi_pickup_at
            (mkItem 1 1 5 .onHold 0 10).oi_return_at it then
          { it with oi_status := demoteSpec it.oi_status }
        else it)) :=
  ⟨by decide, by decide, Or.inl rfl,
    deleteOrderItem_tier1_demotes c4State 1 (mkItem 1 1 5 .onHold 0 10) c4Order1
      (by decide) (by decide) (Or.inl rfl) rfl rfl⟩

/-! ## C5: confirmed-removal release sweep -/

/-- Claim-side per-item step of the confirmed-removal sweep, following the
spec's words: a conflict of the deleted item currently `unavailable` or
`unavailable-until` is released to `available` (clearing the blocking
instant) exactly when no other non-deleted confirmed reservation on the
same inventory item — belonging neither to the deleted reservation's
group nor to the conflict's own group — overlaps the conflict's own
owning group's interval; otherwise it is left unchanged. -/
def confirmedRemovalClaimStep (st : DBState) (deletedItem : OrderItem) (order : Order)
    (it : OrderItem) : OrderItem :=
  if isConflictWith (some deletedItem.oi_inventory_fk_inventory_id) order.order_id
      order.order_pickup_at order.order_return_at it &&
      (decide (it.oi_status = Status.unavailable) ||
       decide (it.oi_status = Status.unavailableUntil)) then
    match st.orders.find? (fun o => decide (o.order_id = it.oi_order_fk_order_id)) with
    | none => it
    | some itemOrder =>
      if (st.items.filter (fun c =>
          decide (c.oi_inventory_fk_inventory_id = it.oi_inventory_fk_inventory_id) &&
          decide (c.oi_order_fk_order_id ≠ order.order_id) &&
          decide (c.oi_order_fk_order_id ≠ it.oi_order_fk_order_id) &&
          !c.oi_deleted &&
          decide (c.oi_status = Status.confirmed) &&
          decide (c.oi_pickup_at ≤ itemOrder.order_return_at) &&
          decide (itemOrder.order_pickup_at ≤ c.oi_return_at))).isEmpty then
        { it with oi_status := Status.available, oi_unavailable_until := none }
      else it
  else it

/-- In a store with at most one non-deleted reservation per (inventory,
group) — so that a blocked conflict's own group holds no confirmed
reservation on the same inventory — the code's sweep (which, because of
the duplicated `$ne` key, only excludes the deleted order) coincides with
the claim-side step that excludes both orders. -/
theorem updateUnavailable_eq_claimStep (st : DBState) (deletedItem : OrderItem) (order : Order)
    (hinv : ∀ c ∈ st.items,
      (c.oi_status = Status.unavailable ∨ c.oi_status = Status.unavailableUntil) →
      ∀ d ∈ st.items, d.oi_order_fk_order_id = c.oi_order_fk_order_id →
        d.oi_inventory_fk_inventory_id = c.oi_inventory_fk_inventory_id →
        d.oi_deleted = false → d.oi_status ≠ Status.confirmed) :
    updateUnavailableItemsAfterConfirmedRemoval st deletedItem order =
      st.items.map (confirmedRemovalClaimStep st deletedItem order) := by
  rw [updateUnavailableItemsAfterConfirmedRemoval]
  apply List.map_congr_left
  intro it hit
  rw [confirmedRemovalClaimStep]
  by_cases hcond : (isConflictWith (some deletedItem.oi_inventory_fk_inventory_id)
      order.order_id order.order_pickup_at order.order_return_at it &&
      (decide (it.oi_status = Status.unavailable) ||
       decide (it.oi_status = Status.unavailableUntil))) = true
  · rw [if_pos hcond, if_pos hcond]
    have hstat : it.oi_status = Status.unavailable ∨
        it.oi_status = Status.unavailableUntil := by
      have h2 := (Bool.and_eq_true _ _ |>.mp hcond).2
      rcases Bool.or_eq_true _ _ |>.mp h2 with h | h
      · exact Or.inl (by simpa using h)
      · exact Or.inr (by simpa using h)
    cases hfo : st.orders.find? (fun o => decide (o.order_id = it.oi_order_fk_order_id)) with
    | none => rfl
    | some itemOrder =>
      dsimp only []
      have hfil : st.items.filter (fun c =>
          decide (c.oi_inventory_fk_inventory_id = it.oi_inventory_fk_inventory_id) &&
          decide (c.oi_order_fk_order_id ≠ order.order_id) &&
          !c.oi_deleted &&
          decide (c.oi_status = Status.confirmed) &&
          decide (c.oi_pickup_at ≤ itemOrder.order_return_at) &&
          decide (itemOrder.order_pickup_at ≤ c.oi_return_at)) =
        st.items.filter (fun c =>
          decide (c.oi_inventory_fk_inventory_id = it.oi_inventory_fk_inventory_id) &&
          decide (c.oi_order_fk_order_id ≠ order.order_id) &&
          decide (c.oi_order_fk_order_id ≠ it.oi_order_fk_order_id) &&
          !c.oi_deleted &&
          decide (c.oi_status = Status.confirmed) &&
          decide (c.oi_pickup_at ≤ itemOrder.order_return_at) &&
          decide (itemOrder.order_pickup_at ≤ c.oi_return_at)) := by
        apply List.filter_congr
        intro d hd
        by_cases hiv : d.oi_inventory_fk_inventory_id = it.oi_inventory_fk_inventory_id
        · by_cases hown : d.oi_order_fk_order_id = it.oi_order_fk_order_id
          · by_cases hdel : d.oi_deleted = true
            · simp [hdel]
            · by_cases hcf : d.oi_status = Status.confirmed
              · exact absurd hcf
                  (hinv it hit hstat d hd hown hiv (by simpa using hdel))
              · simp [hcf]
          · simp [hown]
        · simp [hiv]
      rw [hfil]
  · rw [if_neg hcond, if_neg hcond]

/-- C5: deleting a confirmed reservation soft-deletes it and rewrites the
store exactly by the claim-side release step on the post-deletion items:
each blocked conflict is released to `available` with its blocking
instant cleared iff no other non-deleted confirmed reservation on the
same inventory item, outside both the deleted group and the conflict's
own group, overlaps the conflict's own group's interval.  The hypothesis
`hinv` is the data-model invariant that a blocked reservation's own group
carries no confirmed reservation on the same inventory item (a
consequence of at-most-one reservation per (inventory, group)). -/
theorem deleteOrderItem_confirmed_release (st : DBState) (oiId : Nat)
    (orderItem : OrderItem) (order : Order)
    (hfind : st.items.find? (fun it => decide (it.oi_id = oiId) && !it.oi_deleted) =
      some orderItem)
    (hord : st.orders.find? (fun o =>
      decide (o.order_id = orderItem.oi_order_fk_order_id)) = some order)
    (hstatus : orderItem.oi_status = Status.confirmed)
    (hinv : ∀ c ∈ st.items,
      (c.oi_status = Status.unavailable ∨ c.oi_status = Status.unavailableUntil) →
      ∀ d ∈ st.items, d.oi_order_fk_order_id = c.oi_order_fk_order_id →
        d.oi_inventory_fk_inventory_id = c.oi_inventory_fk_inventory_id →
        d.oi_deleted = false → d.oi_status ≠ Status.confirmed) :
    ∃ st2, deleteOrderItem st oiId = .ok st2 ∧
      st2.items = (st.items.map (fun it =>
          if it.oi_id = oiId then { it with oi_deleted := true } else it)).map
        (confirmedRemovalClaimStep
          { orders := st.orders,
            items := st.items.map (fun it =>
              if it.oi_id = oiId then { it with oi_deleted := true } else it) }
          orderItem order) := by
  have hinv1 : ∀ c ∈ st.items.map (fun it =>
        if it.oi_id = oiId then { it with oi_deleted := true } else it),
      (c.oi_status = Status.unavailable ∨ c.oi_status = Status.unavailableUntil) →
      ∀ d ∈ st.items.map (fun it =>
        if it.oi_id = oiId then { it with oi_deleted := true } else it),
        d.oi_order_fk_order_id = c.oi_order_fk_order_id →
        d.oi_inventory_fk_inventory_id = c.oi_inventory_fk_inventory_id →
        d.oi_deleted = false → d.oi_status ≠ Status.confirmed := by
    intro c hc hcs d hd hdo hdi hdd
    obtain ⟨x, hx, rfl⟩ := List.mem_map.mp hc
    obtain ⟨y, hy, rfl⟩ := List.mem_map.mp hd
    by_cases hxid : x.oi_id = oiId <;> by_cases hyid : y.oi_id = oiId <;>
      simp only [hxid, hyid, if_true, if_false, ite_true, ite_false] at hcs hdo hdi hdd ⊢ <;>
      first
        | simp at hdd
        | exact hinv x hx hcs y hy hdo hdi hdd
  have hnotu : ¬(orderItem.oi_status = Status.unavailable ∨
      orderItem.oi_status = Status.unavailableUntil) := by
    simp [hstatus]
  have hnott : ¬(orderItem.oi_status = Status.onHold ∨
      orderItem.oi_status = Status.onHoldRequest) := by
    simp [hstatus]
  simp only [deleteOrderItem, hfind, hord]
  rw [if_neg hnotu, if_neg hnott, if_pos hstatus]
  rw [updateUnavailable_eq_claimStep _ _ _ hinv1]
  split <;> exact ⟨_, rfl, rfl⟩

/-- Fixture for the C5 witness: order 1 holds a confirmed reservation on
inventory 5 which blocks order 2's reservation (`unavailable-until`). -/
def c5State : DBState :=
  { orders := [c4Order1, c4Order2],
    items := [mkItem 1 1 5 .confirmed 0 10,
              mkItem 2 2 5 .unavailableUntil 0 10 (some 10) true] }

/-- Witness for `deleteOrderItem_confirmed_release`: deleting the confirmed
reservation with no other confirmed conflict releases the blocked one. -/
theorem deleteOrderItem_confirmed_release_witness :
    (c5State.items.find? (fun it => decide (it.oi_id = 1) && !it.oi_deleted) =
      some (mkItem 1 1 5 .confirmed 0 10)) ∧
    (c5State.orders.find? (fun o =>
      decide (o.order_id = (mkItem 1 1 5 .confirmed 0 10).oi_order_fk_order_id)) =
      some c4Order1) ∧
    ((mkItem 1 1 5 .confirmed 0 10).oi_status = Status.confirmed) ∧
    (∃ st2, deleteOrderItem c5State 1 = .ok st2 ∧
      st2.items = (c5State.items.map (fun it =>
          if it.oi_id = 1 then { it with oi_deleted := true } else it)).map
        (confirmedRemovalClaimStep
          { orders := c5State.orders,
            items := c5State.items.map (fun it =>
              if it.oi_id = 1 then { it with oi_deleted := true } else it) }
          (mkItem 1 1 5 .confirmed 0 10) c4Order1)) :=
  ⟨by decide, by decide, rfl,
    deleteOrderItem_confirmed_release c5State 1 (mkItem 1 1 5 .confirmed 0 10) c4Order1
      (by decide) (by decide) rfl (by decide)⟩

/-! ## C8: confirming a group fails without mutation on bad group status
or ineligible member statuses -/

/-- C8: confirming a group returns an error — and, since every error is
raised before the success branch constructs a new store, leaves the store
untouched — whenever the group is `cancelled` or already `confirmed`, or
some non-deleted member reservation is neither `available` nor the
granted tier-1 hold `on-hold` (hence in particular for members in
`unavailable`, `unavailable-until`, or any hold-request tier). -/
theorem confirmOrder_fails_invalid (st : DBState) (orderId : Nat) (order : Order)
    (hord : st.orders.find? (fun o => decide (o.order_id = orderId)) = some order)
    (hbad : order.order_status = OrderStatus.cancelled ∨
      order.order_status = OrderStatus.confirm ∨
      ∃ it ∈ st.items, it.oi_order_fk_order_id = orderId ∧ it.oi_deleted = false ∧
        it.oi_status ≠ Status.available ∧ it.oi_status ≠ Status.onHold) :
    ∃ e, confirmOrder st orderId = Except.error e := by
  simp only [confirmOrder, hord]
  by_cases h1 : order.order_status = OrderStatus.cancelled
  · rw [if_pos h1]
    exact ⟨_, rfl⟩
  · rw [if_neg h1]
    by_cases h2 : order.order_status = OrderStatus.confirm
    · rw [if_pos h2]
      exact ⟨_, rfl⟩
    · rw [if_neg h2]
      rcases hbad with hb | hb | ⟨it, hmem, hio, hdel, hna, hnh⟩
      · exact absurd hb h1
      · exact absurd hb h2
      · have hmem2 : it ∈ st.items.filter (fun x =>
            decide (x.oi_order_fk_order_id = orderId) && !x.oi_deleted) := by
          rw [List.mem_filter]
          exact ⟨hmem, by simp [hio, hdel]⟩
        have hne : (st.items.filter (fun x =>
            decide (x.oi_order_fk_order_id = orderId) && !x.oi_deleted)).isEmpty = false := by
          cases hE : (st.items.filter (fun x =>
              decide (x.oi_order_fk_order_id = orderId) && !x.oi_deleted)).isEmpty
          · rfl
          · rw [List.isEmpty_iff] at hE
            rw [hE] at hmem2
            simp at hmem2
        rw [hne]
        have hmem3 : it ∈ (st.items.filter (fun x =>
            decide (x.oi_order_fk_order_id = orderId) && !x.oi_deleted)).filter (fun x =>
            decide (x.oi_status ≠ Status.available) && decide (x.oi_status ≠ Status.onHold)) := by
          rw [List.mem_filter]
          exact ⟨hmem2, by simp [hna, hnh]⟩
        have hne2 : ((st.items.filter (fun x =>
            decide (x.oi_order_fk_order_id = orderId) && !x.oi_deleted)).filter (fun x =>
            decide (x.oi_status ≠ Status.available) &&
            decide (x.oi_status ≠ Status.onHold))).isEmpty = false := by
          cases hE : ((st.items.filter (fun x =>
              decide (x.oi_order_fk_order_id = orderId) && !x.oi_deleted)).filter (fun x =>
              decide (x.oi_status ≠ Status.available) &&
              decide (x.oi_status ≠ Status.onHold))).isEmpty
          · rfl
          · rw [List.isEmpty_iff] at hE
            rw [hE] at hmem3
            simp at hmem3
        simp only [hne2]
        exact ⟨_, rfl⟩

/-- Witness for `confirmOrder_fails_invalid`: order 2's single item is
`2nd-hold` (a hold-request tier), so confirmation fails. -/
theorem confirmOrder_fails_invalid_witness :
    (c4State.orders.find? (fun o => decide (o.order_id = 2)) = some c4Order2) ∧
    (c4Order2.order_status = OrderStatus.cancelled ∨
      c4Order2.order_status = OrderStatus.confirm ∨
      ∃ it ∈ c4State.items, it.oi_order_fk_order_id = 2 ∧ it.oi_deleted = false ∧
        it.oi_status ≠ Status.available ∧ it.oi_status ≠ Status.onHold) ∧
    ∃ e, confirmOrder c4State 2 = Except.error e :=
  ⟨by decide, by decide,
    confirmOrder_fails_invalid c4State 2 c4Order2 (by decide) (by decide)⟩

/-! ## C9: date-update preview and confirmed-conflict rejection do not
mutate the store -/

/-- C9: for a date-carrying update request, when the caller has not set
the confirmed flag the returned store is exactly the input store (the
preview and every validation path only read), and likewise whenever the
request is rejected because some member would conflict with a confirmed
reservation. -/
theorem updateOrder_preview_and_reject_pure (st : DBState) (orderId : Nat)
    (newPickup newReturn : Option Int) (statusArg : Option OrderStatus)
    (confirmedFlag : Bool) :
    (confirmedFlag = false → (newPickup.isSome || newReturn.isSome) = true →
      (updateOrder st orderId newPickup newReturn statusArg confirmedFlag).2 = st) ∧
    ((updateOrder st orderId newPickup newReturn statusArg confirmedFlag).1 =
        UpdateResp.conflictRejected →
      (updateOrder st orderId newPickup newReturn statusArg confirmedFlag).2 = st) := by
  constructor
  · intro hcf hdates
    unfold updateOrder
    split
    · rfl
    · next order heq =>
      dsimp only []
      split
      · rfl
      · cases hp : (calculateStatusesForDateUpdate st orderId
            (newPickup.getD order.order_pickup_at)
            (newReturn.getD order.order_return_at)).2 with
        | true => simp [hp]
        | false => simp [hp, hcf]
  · unfold updateOrder
    split
    · intro _
      rfl
    · next order heq =>
      dsimp only []
      split
      · intro _
        rfl
      · by_cases hdates : (newPickup.isSome || newReturn.isSome) = true
        · rw [if_pos hdates]
          cases hp : (calculateStatusesForDateUpdate st orderId
              (newPickup.getD order.order_pickup_at)
              (newReturn.getD order.order_return_at)).2 with
          | true =>
            intro _
            simp [hp]
          | false =>
            cases hcf : confirmedFlag with
            | false =>
              intro _
              simp [hp, hcf]
            | true =>
              intro h
              simp [hp, hcf] at h
        · rw [if_neg hdates]
          by_cases hsa : statusArg = some OrderStatus.hold
          · rw [if_pos hsa]
            intro h
            split at h
            · simp at h
            · simp at h
          · rw [if_neg hsa]
            intro h
            simp at h

/-- Witness for `updateOrder_preview_and_reject_pure`: an uncommitted
date-update on the two-hold fixture leaves the store unchanged. -/
theorem updateOrder_preview_and_reject_pure_witness :
    (updateOrder c4State 1 (some 20) (some 30) none false).2 = c4State :=
  (updateOrder_preview_and_reject_pure c4State 1 (some 20) (some 30) none false).1
    rfl rfl

/-! ## C6: item creation ignores the inventory item when resolving the
initial status -/

/-- Fixture for C6: group 1 covers `[0, 10]`; a different group holds a
CONFIRMED reservation on a DIFFERENT inventory item (2) over `[0, 10]`. -/
def c6Order : Order :=
  { order_id := 1,
    order_pickup_at := 0,
    order_return_at := 10,
    order_status := .working,
    order_request_hold := false }

def c6State : DBState :=
  { orders := [c6Order], items := [mkItem 7 2 2 .confirmed 0 10] }

/-- C6 fails on the code: adding inventory item 1 to group 1 creates the
reservation with status `unavailable-until` — because `createOrderItem`
calls `getStatus(order)` without the inventory id, the conflict query
matches the confirmed reservation on inventory 2 — while the simplified
resolver applied to inventory 1 against the group's interval yields
`available`. -/
theorem createOrderItem_ignores_inventory :
    (∃ st2 newItem, createOrderItem c6State 9 1 1 = Except.ok (st2, newItem) ∧
      newItem.oi_status = Status.unavailableUntil ∧
      newItem.oi_inventory_fk_inventory_id = 1) ∧
    (getStatus c6State.items (some 1) c6Order).1 = Status.available ∧
    Status.unavailableUntil ≠ Status.available := by
  refine ⟨⟨_, _, rfl, rfl, rfl⟩, rfl, by decide⟩

/-! ## C10: the `unavailable_until` ↔ `unavailable-until` invariant is
broken by the date-update commit path -/

/-- Fixture for C10: group 1 (`hold`, `[0, 10]`) owns item 1, blocked as
`unavailable-until` 10 by group 2's confirmed reservation (item 2, same
inventory, same interval).  The starting store satisfies the invariant. -/
def c10Order1 : Order :=
  { order_id := 1,
    order_pickup_at := 0,
    order_return_at := 10,
    order_status := .hold,
    order_request_hold := true }

def c10Order2 : Order :=
  { order_id := 2,
    order_pickup_at := 0,
    order_return_at := 10,
    order_status := .confirm,
    order_request_hold := false }

def c10State : DBState :=
  { orders := [c10Order1, c10Order2],
    items := [mkItem 1 1 1 .unavailableUntil 0 10 (some 10) true,
              mkItem 2 2 1 .confirmed 0 10] }

/-- C10 fails on the code: starting from a store satisfying the
invariant, committing a date update of group 1 to the conflict-free
interval `[20, 30]` recomputes item 1 to `on-hold-request` but leaves the
stale `oi_unavailable_until = 10` in place (the commit only writes the
field when the previewed value is present), so after this public
operation a reservation has a non-null `unavailable_until` with a status
other than `unavailable-until`. -/
theorem updateOrder_commit_leaves_stale_until :
    (∀ it ∈ c10State.items, untilInvariant it) ∧
    (∃ it ∈ (updateOrder c10State 1 (some 20) (some 30) none true).2.items,
      it.oi_status = Status.onHoldRequest ∧ it.oi_unavailable_until = some 10 ∧
      ¬ untilInvariant it) := by
  constructor
  · intro it hit
    fin_cases hit <;> simp [untilInvariant, mkItem]
  · refine ⟨mkItem 1 1 1 .onHoldRequest 20 30 (some 10) true, ?_, rfl, rfl, ?_⟩
    · show _ ∈ (updateOrder c10State 1 (some 20) (some 30) none true).2.items
      decide
    · simp [untilInvariant, mkItem]

end OrderCore
